import Mathlib

/-!
Shallow embedding of the kello alarm-clock logic.

The alarm module stores its configuration in reactive signals; here the
signal values are gathered into an explicit state record that the
operations read and update.  JavaScript numbers holding clock values are
integers in every reachable situation modelled here, so signal values are
embedded as Int.  The JavaScript remainder operator truncates toward
zero, which is Int.tmod; where an operand is known non-negative this
agrees with the Euclidean % used by Lean.  External side effects of the
Web-Audio notification sink are modelled as an explicit event trace
returned next to the updated state.
-/

namespace Kello

/-- A wall-clock instant as produced by Date.getHours / getMinutes /
getSeconds.  Fields are Int so that arithmetic with stored alarm values
stays in one type; Valid states the ranges the Date API guarantees. -/
structure Time where
  hours : Int
  minutes : Int
  seconds : Int
deriving DecidableEq, Repr

/-- The ranges Date.getHours, getMinutes and getSeconds guarantee. -/
def Time.Valid (t : Time) : Prop :=
  0 ≤ t.hours ∧ t.hours ≤ 23 ∧ 0 ≤ t.minutes ∧ t.minutes ≤ 59 ∧
    0 ≤ t.seconds ∧ t.seconds ≤ 59

/-- The alarm module's signal state plus the module-level audio handles
(audioContext, oscillatorNode, gainNode; a Bool records whether the
handle is non-null). -/
structure AlarmState where
  alarmEnabled : Bool
  alarmHours : Int
  alarmMinutes : Int
  preAlarmEnabled : Bool
  preAlarmInterval : Int
  alarmTriggered : Bool
  lastPreAlarmMinute : Int
  audioContext : Bool
  oscillatorNode : Bool
  gainNode : Bool
deriving DecidableEq, Repr

/-- The documented invariant on a stored alarm configuration: hour in
[0,11] (12-hour form) and minute in [0,59]. -/
def AlarmState.ValidConfig (s : AlarmState) : Prop :=
  0 ≤ s.alarmHours ∧ s.alarmHours ≤ 11 ∧
    0 ≤ s.alarmMinutes ∧ s.alarmMinutes ≤ 59

/-- currentTotalMinutes of the source: minutes since midnight. -/
def minuteOfDay (t : Time) : Int :=
  t.hours * 60 + t.minutes

/-- alarmTotalMinutes1 of the source: the AM occurrence of the alarm as
minutes since midnight. -/
def alarmTotalMinutes1 (s : AlarmState) : Int :=
  s.alarmHours * 60 + s.alarmMinutes

/-- alarmTotalMinutes2 of the source: the PM occurrence of the alarm as
minutes since midnight. -/
def alarmTotalMinutes2 (s : AlarmState) : Int :=
  (s.alarmHours + 12) * 60 + s.alarmMinutes

/-- computeMinutesUntilAlarm from src/unnamed/part_002 lines 35-51. -/
def computeMinutesUntilAlarm (s : AlarmState) (currentTime : Time) : Int :=
  if minuteOfDay currentTime < alarmTotalMinutes1 s then
    alarmTotalMinutes1 s - minuteOfDay currentTime
  else if minuteOfDay currentTime < alarmTotalMinutes2 s then
    alarmTotalMinutes2 s - minuteOfDay currentTime
  else
    24 * 60 - minuteOfDay currentTime + alarmTotalMinutes1 s

/-- The secondsUntilAlarm local of computeTimeToNextAlarm
(src/unnamed/part_002 line 63). -/
def secondsUntilAlarm (s : AlarmState) (t : Time) : Int :=
  computeMinutesUntilAlarm s t * 60 - t.seconds

/-- The record returned by computeTimeToNextAlarm when the alarm is
enabled. -/
structure TimeParts where
  hours : Int
  minutes : Int
  seconds : Int
deriving DecidableEq, Repr

/-- computeTimeToNextAlarm from src/unnamed/part_002 lines 54-71.
Math.floor of an integer quotient is Euclidean division here because
Lean's / on Int rounds toward negative infinity exactly as Math.floor
does; the JavaScript remainder is Int.tmod. -/
def computeTimeToNextAlarm (s : AlarmState) (t : Time) : Option TimeParts :=
  if !s.alarmEnabled then
    none
  else
    some { hours := secondsUntilAlarm s t / 3600
           minutes := (Int.tmod (secondsUntilAlarm s t) 3600) / 60
           seconds := Int.tmod (secondsUntilAlarm s t) 60 }

/-- checkAlarm from src/unnamed/part_002 lines 74-95 (the console.log has
no effect on the result and is dropped). -/
def checkAlarm (s : AlarmState) (currentTime : Time) : Bool :=
  if !s.alarmEnabled || s.alarmTriggered then
    false
  else
    Int.tmod currentTime.hours 12 == s.alarmHours &&
      currentTime.minutes == s.alarmMinutes

/-- Externally observable Web-Audio actions of the alarm sound code. -/
inductive AudioEvent where
  | chime
  | oscStop
  | oscDisconnect
  | gainDisconnect
  | ctxClose
deriving DecidableEq, Repr

/-- playAlarmSound from src/unnamed/part_002 lines 98-146: a no-op when
audioContext is already non-null, otherwise it allocates the context and
gain node and starts the chime pattern (oscillatorNode, the module-level
handle, is never assigned by it). -/
def playAlarmSound (s : AlarmState) : List AudioEvent × AlarmState :=
  if s.audioContext then
    ([], s)
  else
    ([AudioEvent.chime], { s with audioContext := true, gainNode := true })

/-- stopAlarmSound from src/unnamed/part_002 lines 149-163: each handle
that is non-null is stopped / disconnected / closed and nulled. -/
def stopAlarmSound (s : AlarmState) : List AudioEvent × AlarmState :=
  ((if s.oscillatorNode then [AudioEvent.oscStop, AudioEvent.oscDisconnect] else []) ++
     (if s.gainNode then [AudioEvent.gainDisconnect] else []) ++
     (if s.audioContext then [AudioEvent.ctxClose] else []),
   { s with oscillatorNode := false, gainNode := false, audioContext := false })

/-- triggerAlarm from src/unnamed/part_002 lines 305-308. -/
def triggerAlarm (s : AlarmState) : List AudioEvent × AlarmState :=
  playAlarmSound { s with alarmTriggered := true }

/-- dismissAlarm from src/unnamed/part_002 lines 311-315. -/
def dismissAlarm (s : AlarmState) : List AudioEvent × AlarmState :=
  stopAlarmSound { s with alarmTriggered := false, alarmEnabled := false }

/-- toggleAlarm from src/unnamed/part_002 lines 349-354. -/
def toggleAlarm (s : AlarmState) : List AudioEvent × AlarmState :=
  let s1 := { s with alarmEnabled := !s.alarmEnabled }
  if !s1.alarmEnabled then dismissAlarm s1 else ([], s1)

/-- checkPreAlarm from src/unnamed/part_002 lines 280-302.  The first
component is the returned value (some for the fired minutes count, none
for false), the second the state with lastPreAlarmMinute possibly
updated. -/
def checkPreAlarm (s : AlarmState) (currentTime : Time) :
    Option Int × AlarmState :=
  if !s.preAlarmEnabled || !s.alarmEnabled || s.alarmTriggered then
    (none, s)
  else
    if 0 < computeMinutesUntilAlarm s currentTime ∧
        Int.tmod (computeMinutesUntilAlarm s currentTime) s.preAlarmInterval = 0 then
      if minuteOfDay currentTime ≠ s.lastPreAlarmMinute then
        (some (computeMinutesUntilAlarm s currentTime),
         { s with lastPreAlarmMinute := minuteOfDay currentTime })
      else
        (none, s)
    else
      (none, s)

/-- setAlarmHours from src/unnamed/part_002 lines 339-341; the remainder
operator is the JavaScript one (truncated). -/
def setAlarmHours (s : AlarmState) (hours : Int) : AlarmState :=
  { s with alarmHours := Int.tmod (Int.tmod hours 12 + 12) 12 }

/-- setAlarmMinutes from src/unnamed/part_002 lines 344-346. -/
def setAlarmMinutes (s : AlarmState) (minutes : Int) : AlarmState :=
  { s with alarmMinutes := Int.tmod (Int.tmod minutes 60 + 60) 60 }

/-- The value urlSignal (src/unnamed/part_001 lines 3-41) gives its
signal at startup: the parsed URL parameter when present and parseable,
the initial value otherwise.  No normalisation is applied to a parsed
number. -/
def urlSignalInitial (parsed : Option Int) (initialValue : Int) : Int :=
  match parsed with
  | some v => v
  | none => initialValue

/-- The shape of a successfully parsed localStorage record, after the
typeof checks of loadAlarmSettings: each field is present only when it
had the right JSON type. -/
structure StoredAlarmJson where
  enabled : Option Bool
  hours : Option Int
  minutes : Option Int
deriving DecidableEq, Repr

/-- The settings record loadAlarmSettings produces. -/
structure AlarmSettings where
  enabled : Bool
  hours : Int
  minutes : Int
deriving DecidableEq, Repr

/-- DEFAULT_SETTINGS of src/src/ToggleButton.tsx line 132. -/
def DEFAULT_SETTINGS : AlarmSettings :=
  { enabled := false, hours := 7, minutes := 0 }

/-- loadAlarmSettings from src/src/ToggleButton.tsx lines 135-160.  A
missing key, an unparseable value or a non-object parse result all yield
the defaults and are folded into the none case; hours is reduced with the
JavaScript remainder, minutes is taken unchanged. -/
def loadAlarmSettings (saved : Option StoredAlarmJson) : AlarmSettings :=
  match saved with
  | none => DEFAULT_SETTINGS
  | some result =>
    { enabled := result.enabled.getD false
      hours := match result.hours with
               | some h => Int.tmod h 12
               | none => 7
      minutes := result.minutes.getD 0 }

/-- The polling component's state: the lastCheckedMinute signal of
src/src/index.tsx line 86 next to the alarm module state. -/
structure ClockState where
  lastCheckedMinute : Int
  alarm : AlarmState
deriving DecidableEq, Repr

/-- One run of the 50 ms interval callback of AnalogClock
(src/src/index.tsx lines 130-148): when the minute of day differs from
lastCheckedMinute it records the new minute and evaluates checkAlarm,
invoking triggerAlarm on a match.  The Bool tells whether triggerAlarm
was invoked. -/
def tick (c : ClockState) (t : Time) : Bool × ClockState :=
  if minuteOfDay t ≠ c.lastCheckedMinute then
    if checkAlarm c.alarm t then
      (true, { lastCheckedMinute := minuteOfDay t
               alarm := (triggerAlarm c.alarm).2 })
    else
      (false, { c with lastCheckedMinute := minuteOfDay t })
  else
    (false, c)

/-- Repeated interval callbacks; returns how often triggerAlarm was
invoked and the final state. -/
def runTicks (c : ClockState) : List Time → Nat × ClockState
  | [] => (0, c)
  | t :: ts =>
    ((if (tick c t).1 then 1 else 0) + (runTicks (tick c t).2 ts).1,
     (runTicks (tick c t).2 ts).2)

/-- A concrete state: alarm set to 07:00, enabled, not ringing. -/
def sampleAlarm7 : AlarmState :=
  { alarmEnabled := true
    alarmHours := 7
    alarmMinutes := 0
    preAlarmEnabled := false
    preAlarmInterval := 5
    alarmTriggered := false
    lastPreAlarmMinute := -1
    audioContext := false
    oscillatorNode := false
    gainNode := false }

/-! Helper lemmas about the JavaScript remainder. -/

lemma tmod_neg_arg (a n : Int) : Int.tmod (-a) n = -(Int.tmod a n) := by
  have e1 := Int.tmod_add_tdiv (-a) n
  rw [Int.neg_tdiv a n, mul_neg] at e1
  have e3 := Int.tmod_add_tdiv a n
  linarith

lemma tmod_gt_neg (a n : Int) (hn : 0 < n) : -n < Int.tmod a n := by
  rcases le_or_lt 0 a with hp | hneg
  · have := Int.tmod_nonneg n hp
    omega
  · have h2 := tmod_neg_arg a n
    have h3 : Int.tmod (-a) n < n := Int.tmod_lt_of_pos (-a) hn
    omega

/-- The JavaScript idiom ((a % n) + n) % n computes the mathematical
(Euclidean) modulus. -/
lemma tmod_wrap (a n : Int) (hn : 0 < n) : Int.tmod (Int.tmod a n + n) n = a % n := by
  have hlb := tmod_gt_neg a n hn
  have key := Int.tmod_add_tdiv a n
  calc Int.tmod (Int.tmod a n + n) n
      = (Int.tmod a n + n) % n := Int.tmod_eq_emod (by omega) (by omega)
    _ = (Int.tmod a n + n * 1) % n := by rw [mul_one]
    _ = (Int.tmod a n) % n := Int.add_mul_emod_self_left _ _ _
    _ = (Int.tmod a n + n * a.tdiv n) % n := (Int.add_mul_emod_self_left _ _ _).symm
    _ = a % n := by rw [key]

/-- Bounds on the wait computed by computeMinutesUntilAlarm for a valid
configuration and a valid clock reading: between 1 and 720 minutes. -/
lemma computeMinutesUntilAlarm_bounds (s : AlarmState) (t : Time)
    (hs : s.ValidConfig) (ht : t.Valid) :
    1 ≤ computeMinutesUntilAlarm s t ∧ computeMinutesUntilAlarm s t ≤ 720 := by
  obtain ⟨h1, h2, h3, h4⟩ := hs
  obtain ⟨g1, g2, g3, g4, g5, g6⟩ := ht
  unfold computeMinutesUntilAlarm alarmTotalMinutes1 alarmTotalMinutes2 minuteOfDay
  split_ifs <;> omega

/-- Claim C9: for every integer h, including negative ones, setAlarmHours h
followed by reading the alarm hour yields ((h % 12) + 12) % 12, the
mathematical modulus of h by 12. -/
theorem claim9_set_hours_mod (s : AlarmState) (h : Int) :
    (setAlarmHours s h).alarmHours = ((h % 12) + 12) % 12 := by
  show Int.tmod (Int.tmod h 12 + 12) 12 = ((h % 12) + 12) % 12
  rw [tmod_wrap h 12 (by omega)]
  omega

/-- Claim C5 counterexample: loading persisted values does not keep the
hour in [0,11] or the minute in [0,59].  A stored record with hours -5
and minutes 75 loads as exactly those values (the JavaScript remainder
leaves -5 % 12 = -5 and minutes are not wrapped at all), and a URL
parameter alarmMinutes=75 is adopted unchanged by urlSignal. -/
theorem claim5_counterexample :
    (loadAlarmSettings (some ⟨none, some (-5), some 75⟩)).hours = -5 ∧
      (loadAlarmSettings (some ⟨none, some (-5), some 75⟩)).minutes = 75 ∧
      ¬(0 ≤ (loadAlarmSettings (some ⟨none, some (-5), some 75⟩)).hours) ∧
      ¬((loadAlarmSettings (some ⟨none, some (-5), some 75⟩)).minutes ≤ 59) ∧
      urlSignalInitial (some 75) 0 = 75 := by
  decide

/-- Claim C5 amended: the user-facing setters setAlarmHours and
setAlarmMinutes always wrap their argument into [0,11] respectively
[0,59] by modular arithmetic, never rejecting a write; loading persisted
values (urlSignal, loadAlarmSettings) does not re-establish these
ranges. -/
theorem claim5_setters_wrap :
    (∀ (s : AlarmState) (h : Int),
        0 ≤ (setAlarmHours s h).alarmHours ∧ (setAlarmHours s h).alarmHours ≤ 11) ∧
      (∀ (s : AlarmState) (m : Int),
        0 ≤ (setAlarmMinutes s m).alarmMinutes ∧ (setAlarmMinutes s m).alarmMinutes ≤ 59) := by
  constructor
  · intro s h
    have h12 : Int.tmod (Int.tmod h 12 + 12) 12 = h % 12 := tmod_wrap h 12 (by omega)
    show 0 ≤ Int.tmod (Int.tmod h 12 + 12) 12 ∧ Int.tmod (Int.tmod h 12 + 12) 12 ≤ 11
    rw [h12]
    omega
  · intro s m
    have h60 : Int.tmod (Int.tmod m 60 + 60) 60 = m % 60 := tmod_wrap m 60 (by omega)
    show 0 ≤ Int.tmod (Int.tmod m 60 + 60) 60 ∧ Int.tmod (Int.tmod m 60 + 60) 60 ≤ 59
    rw [h60]
    omega

/-- Claim C8: dismissAlarm is idempotent: from any starting state, a
second dismissAlarm leaves the state unchanged and emits no further
external effects, so the cumulative trace of two calls equals that of
one. -/
theorem claim8_dismiss_idempotent (s : AlarmState) :
    (dismissAlarm (dismissAlarm s).2).2 = (dismissAlarm s).2 ∧
      (dismissAlarm s).1 ++ (dismissAlarm (dismissAlarm s).2).1 = (dismissAlarm s).1 := by
  constructor
  · rfl
  · show (dismissAlarm s).1 ++ [] = (dismissAlarm s).1
    exact List.append_nil _

/-- Claim C1: for every valid current time and every alarm configuration
with hour in [0,11] and minute in [0,59], computeMinutesUntilAlarm
reaches the smallest of the two candidate occurrences (AM and PM
minutes of day) that is strictly greater than the current minutes since
midnight, returning the distance to it; when both candidates have
passed it returns 1440 minus the current minutes plus the AM
candidate. -/
theorem claim1_minutes_until_alarm (s : AlarmState) (t : Time)
    (hs : s.ValidConfig) (ht : t.Valid) :
    ((minuteOfDay t < alarmTotalMinutes1 s ∨ minuteOfDay t < alarmTotalMinutes2 s) →
      ∃ c, (c = alarmTotalMinutes1 s ∨ c = alarmTotalMinutes2 s) ∧
        minuteOfDay t < c ∧
        (∀ d, (d = alarmTotalMinutes1 s ∨ d = alarmTotalMinutes2 s) →
          minuteOfDay t < d → c ≤ d) ∧
        computeMinutesUntilAlarm s t = c - minuteOfDay t) ∧
      ((alarmTotalMinutes1 s ≤ minuteOfDay t ∧ alarmTotalMinutes2 s ≤ minuteOfDay t) →
        computeMinutesUntilAlarm s t =
          1440 - minuteOfDay t + alarmTotalMinutes1 s) := by
  have hlt : alarmTotalMinutes1 s < alarmTotalMinutes2 s := by
    unfold alarmTotalMinutes1 alarmTotalMinutes2
    omega
  constructor
  · intro hsome
    by_cases h1 : minuteOfDay t < alarmTotalMinutes1 s
    · refine ⟨alarmTotalMinutes1 s, Or.inl rfl, h1, ?_, ?_⟩
      · rintro d (rfl | rfl) hd
        · exact le_refl _
        · exact le_of_lt hlt
      · unfold computeMinutesUntilAlarm
        rw [if_pos h1]
    · have h2 : minuteOfDay t < alarmTotalMinutes2 s := by
        rcases hsome with hc | hc
        · exact absurd hc h1
        · exact hc
      refine ⟨alarmTotalMinutes2 s, Or.inr rfl, h2, ?_, ?_⟩
      · rintro d (rfl | rfl) hd
        · exact absurd hd h1
        · exact le_refl _
      · unfold computeMinutesUntilAlarm
        rw [if_neg h1, if_pos h2]
  · rintro ⟨ha1, ha2⟩
    unfold computeMinutesUntilAlarm
    rw [if_neg (by omega), if_neg (by omega)]
    omega

/-- Claim C1 witness: with the alarm at 07:00 and the clock at 20:00 both
occurrences have passed and the wait wraps to the next morning. -/
theorem claim1_witness :
    computeMinutesUntilAlarm sampleAlarm7 ⟨20, 0, 0⟩ = 660 := by
  have h := (claim1_minutes_until_alarm sampleAlarm7 ⟨20, 0, 0⟩
    (by constructor <;> simp [sampleAlarm7])
    (by unfold Time.Valid
        norm_num)).2 (by constructor <;> decide)
  rw [h]
  decide

/-- Claim C2: checkAlarm returns false whenever the alarm is disabled or
already triggered; otherwise it returns true exactly when the current
hour reduced mod 12 equals the stored hour and the minutes agree; in
particular the 07:00 alarm fires at 19:00 (the PM occurrence). -/
theorem claim2_check_alarm (s : AlarmState) (t : Time) (ht : t.Valid) :
    ((s.alarmEnabled = false ∨ s.alarmTriggered = true) → checkAlarm s t = false) ∧
      (s.alarmEnabled = true → s.alarmTriggered = false →
        (checkAlarm s t = true ↔
          (t.hours % 12 = s.alarmHours ∧ t.minutes = s.alarmMinutes))) ∧
      checkAlarm sampleAlarm7 ⟨19, 0, 0⟩ = true := by
  refine ⟨?_, ?_, by decide⟩
  · intro hdis
    unfold checkAlarm
    rcases hdis with h | h <;> rw [if_pos] <;> simp [h]
  · intro he htr
    unfold checkAlarm
    rw [if_neg (by simp [he, htr]),
      Int.tmod_eq_emod ht.1 (by omega)]
    simp

/-- Claim C2 witness: a disabled alarm never matches. -/
theorem claim2_witness :
    checkAlarm { sampleAlarm7 with alarmEnabled := false } ⟨7, 0, 0⟩ = false :=
  (claim2_check_alarm { sampleAlarm7 with alarmEnabled := false } ⟨7, 0, 0⟩
    (by unfold Time.Valid
        norm_num)).1 (Or.inl rfl)

/-- Claim C3 counterexample: with the alarm set to 07:00, enabled, and
the clock reading exactly 07:00:00, the computed secondsUntilAlarm is
43200 = 12*3600, so the strict upper bound of the claim fails at a valid
configuration and a valid time. -/
theorem claim3_counterexample :
    sampleAlarm7.ValidConfig ∧ (Time.mk 7 0 0).Valid ∧
      sampleAlarm7.alarmEnabled = true ∧
      secondsUntilAlarm sampleAlarm7 ⟨7, 0, 0⟩ = 43200 ∧
      ¬(secondsUntilAlarm sampleAlarm7 ⟨7, 0, 0⟩ < 12 * 3600) := by
  refine ⟨?_, ?_, rfl, by decide, by decide⟩
  · constructor <;> simp [sampleAlarm7]
  · unfold Time.Valid
    norm_num

/-- Claim C3 amended: for every valid configuration and valid current
time, secondsUntilAlarm is at least 0 and at most 12*3600; the upper
bound is attained (when the current instant is exactly an alarm
occurrence), so it is not strict. -/
theorem claim3_seconds_until_bounds (s : AlarmState) (t : Time)
    (hs : s.ValidConfig) (ht : t.Valid) :
    0 ≤ secondsUntilAlarm s t ∧ secondsUntilAlarm s t ≤ 12 * 3600 := by
  have hb := computeMinutesUntilAlarm_bounds s t hs ht
  obtain ⟨g1, g2, g3, g4, g5, g6⟩ := ht
  unfold secondsUntilAlarm
  omega

/-- Claim C3 witness: the bounds at a concrete configuration and time. -/
theorem claim3_witness :
    0 ≤ secondsUntilAlarm sampleAlarm7 ⟨12, 30, 15⟩ ∧
      secondsUntilAlarm sampleAlarm7 ⟨12, 30, 15⟩ ≤ 12 * 3600 :=
  claim3_seconds_until_bounds sampleAlarm7 ⟨12, 30, 15⟩
    (by constructor <;> simp [sampleAlarm7])
    (by unfold Time.Valid
        norm_num)

/-- Claim C10: computeTimeToNextAlarm yields no countdown exactly when
the alarm is disarmed, and with the alarm enabled it yields an
hours/minutes/seconds record that decomposes secondsUntilAlarm with
minutes and seconds in their usual ranges. -/
theorem claim10_countdown_none_iff_disarmed (s : AlarmState) (t : Time)
    (hs : s.ValidConfig) (ht : t.Valid) :
    (computeTimeToNextAlarm s t = none ↔ s.alarmEnabled = false) ∧
      (s.alarmEnabled = true →
        ∃ r : TimeParts, computeTimeToNextAlarm s t = some r ∧
          r.hours * 3600 + r.minutes * 60 + r.seconds = secondsUntilAlarm s t ∧
          0 ≤ r.hours ∧ 0 ≤ r.minutes ∧ r.minutes < 60 ∧
          0 ≤ r.seconds ∧ r.seconds < 60) := by
  have hx : 0 ≤ secondsUntilAlarm s t ∧ secondsUntilAlarm s t ≤ 12 * 3600 := by
    have hb := computeMinutesUntilAlarm_bounds s t hs ht
    obtain ⟨g1, g2, g3, g4, g5, g6⟩ := ht
    unfold secondsUntilAlarm
    omega
  constructor
  · unfold computeTimeToNextAlarm
    cases he : s.alarmEnabled <;> simp [he]
  · intro he
    have h1 : Int.tmod (secondsUntilAlarm s t) 3600 = secondsUntilAlarm s t % 3600 :=
      Int.tmod_eq_emod hx.1 (by omega)
    have h2 : Int.tmod (secondsUntilAlarm s t) 60 = secondsUntilAlarm s t % 60 :=
      Int.tmod_eq_emod hx.1 (by omega)
    refine ⟨⟨secondsUntilAlarm s t / 3600,
             Int.tmod (secondsUntilAlarm s t) 3600 / 60,
             Int.tmod (secondsUntilAlarm s t) 60⟩, ?_, ?_, ?_, ?_, ?_, ?_, ?_⟩
    · unfold computeTimeToNextAlarm
      rw [if_neg (by simp [he])]
    all_goals
      dsimp only
      try simp only [h1, h2]
      omega

/-- A configuration like sampleAlarm7 but with the pre-alarm feature
switched on. -/
def preSample : AlarmState :=
  { sampleAlarm7 with preAlarmEnabled := true }

lemma checkPreAlarm_some_state (s : AlarmState) (t : Time) (v : Int)
    (h : (checkPreAlarm s t).1 = some v) :
    (checkPreAlarm s t).2 = { s with lastPreAlarmMinute := minuteOfDay t } := by
  unfold checkPreAlarm at h ⊢
  split_ifs at h ⊢ <;> simp_all

lemma checkPreAlarm_some_flags (s : AlarmState) (t : Time) (v : Int)
    (h : (checkPreAlarm s t).1 = some v) :
    s.preAlarmEnabled = true ∧ s.alarmEnabled = true ∧ s.alarmTriggered = false := by
  unfold checkPreAlarm at h
  split_ifs at h with h1 h2 h3 <;> simp_all

/-- Claim C4: checkPreAlarm returns false unless the pre-alarm and the
main alarm are enabled and the alarm is not already triggered; under
those flags it returns the minutes-until-alarm value exactly when that
value is positive, leaves remainder 0 by the interval, and the current
minute of day differs from lastPreAlarmMinute, recording the current
minute of day on fire; consequently a second call within the same minute
of day returns false. -/
theorem claim4_check_pre_alarm (s : AlarmState) (t t2 : Time)
    (hsame : minuteOfDay t2 = minuteOfDay t) :
    ((s.preAlarmEnabled = false ∨ s.alarmEnabled = false ∨ s.alarmTriggered = true) →
      checkPreAlarm s t = (none, s)) ∧
      (s.preAlarmEnabled = true → s.alarmEnabled = true → s.alarmTriggered = false →
        (((checkPreAlarm s t).1 = some (computeMinutesUntilAlarm s t)) ↔
            (0 < computeMinutesUntilAlarm s t ∧
              Int.tmod (computeMinutesUntilAlarm s t) s.preAlarmInterval = 0 ∧
              minuteOfDay t ≠ s.lastPreAlarmMinute)) ∧
          ((0 < computeMinutesUntilAlarm s t ∧
              Int.tmod (computeMinutesUntilAlarm s t) s.preAlarmInterval = 0 ∧
              minuteOfDay t ≠ s.lastPreAlarmMinute) →
            (checkPreAlarm s t).2 = { s with lastPreAlarmMinute := minuteOfDay t }) ∧
          (¬(0 < computeMinutesUntilAlarm s t ∧
              Int.tmod (computeMinutesUntilAlarm s t) s.preAlarmInterval = 0 ∧
              minuteOfDay t ≠ s.lastPreAlarmMinute) →
            checkPreAlarm s t = (none, s))) ∧
      (∀ v, (checkPreAlarm s t).1 = some v →
        (checkPreAlarm (checkPreAlarm s t).2 t2).1 = none) := by
  refine ⟨?_, ?_, ?_⟩
  · intro hdis
    unfold checkPreAlarm
    rcases hdis with h | h | h <;> rw [if_pos (by simp [h])]
  · intro hp he htr
    refine ⟨?_, ?_, ?_⟩
    · constructor
      · intro h
        have h1 := h
        unfold checkPreAlarm at h1
        rw [if_neg (by simp [hp, he, htr])] at h1
        split_ifs at h1 with hA hB
        exact ⟨hA.1, hA.2, hB⟩
      · rintro ⟨h1, h2, h3⟩
        unfold checkPreAlarm
        rw [if_neg (by simp [hp, he, htr]), if_pos ⟨h1, h2⟩, if_pos h3]
    · rintro ⟨h1, h2, h3⟩
      unfold checkPreAlarm
      rw [if_neg (by simp [hp, he, htr]), if_pos ⟨h1, h2⟩, if_pos h3]
    · intro hnot
      unfold checkPreAlarm
      rw [if_neg (by simp [hp, he, htr])]
      by_cases hA : 0 < computeMinutesUntilAlarm s t ∧
          Int.tmod (computeMinutesUntilAlarm s t) s.preAlarmInterval = 0
      · rw [if_pos hA, if_neg (by tauto)]
      · rw [if_neg hA]
  · intro v h
    have hflags := checkPreAlarm_some_flags s t v h
    rw [checkPreAlarm_some_state s t v h]
    unfold checkPreAlarm
    rw [if_neg (by simp [hflags.1, hflags.2.1, hflags.2.2])]
    split_ifs with hA hB
    · exfalso
      apply hB
      simp [hsame]
    · rfl
    · rfl

/-- Claim C4 witness: with the pre-alarm enabled, interval 5 and the
alarm at 07:00, polling at 06:25:00 fires the 35-minute announcement
and a second poll at 06:25:45 (same minute of day) stays silent. -/
theorem claim4_witness :
    (checkPreAlarm (checkPreAlarm preSample ⟨6, 25, 0⟩).2 ⟨6, 25, 45⟩).1 = none :=
  (claim4_check_pre_alarm preSample ⟨6, 25, 0⟩ ⟨6, 25, 45⟩ (by decide)).2.2
    35 (by decide)

lemma tick_same_minute (c : ClockState) (t : Time)
    (h : minuteOfDay t = c.lastCheckedMinute) : tick c t = (false, c) := by
  unfold tick
  rw [if_neg (by simp [h])]

lemma tick_last (c : ClockState) (t : Time) :
    (tick c t).2.lastCheckedMinute = minuteOfDay t := by
  unfold tick
  split_ifs with h1 h2
  · rfl
  · rfl
  · push_neg at h1
    simpa using h1.symm

lemma runTicks_same_minute (ts : List Time) (c : ClockState)
    (h : ∀ t ∈ ts, minuteOfDay t = c.lastCheckedMinute) :
    runTicks c ts = (0, c) := by
  induction ts with
  | nil => rfl
  | cons t ts ih =>
    have h1 : tick c t = (false, c) := tick_same_minute c t (h t (by simp))
    unfold runTicks
    rw [h1]
    dsimp only
    rw [ih (fun u hu => h u (List.mem_cons_of_mem _ hu))]
    rfl

/-- Claim C6: over any run of poll ticks that all happen within one fixed
minute of day, triggerAlarm is invoked at most once: the
lastCheckedMinute guard evaluates checkAlarm only when the minute of day
changes, so repeated ticks in the same minute add no further trigger. -/
theorem claim6_at_most_once_per_minute (c : ClockState) (ts : List Time)
    (m : Int) (h : ∀ t ∈ ts, minuteOfDay t = m) :
    (runTicks c ts).1 ≤ 1 := by
  cases ts with
  | nil => simp [runTicks]
  | cons t ts =>
    have hm := h t (by simp)
    have hrest : runTicks (tick c t).2 ts = (0, (tick c t).2) := by
      apply runTicks_same_minute
      intro u hu
      rw [tick_last c t, h u (List.mem_cons_of_mem _ hu), hm]
    unfold runTicks
    rw [hrest]
    dsimp only
    split <;> omega

/-- Claim C6 witness: three poll ticks during the 07:00 minute (the
first of which fires the 07:00 alarm) invoke the trigger at most
once. -/
theorem claim6_witness :
    (runTicks ⟨-1, sampleAlarm7⟩ [⟨7, 0, 0⟩, ⟨7, 0, 1⟩, ⟨7, 0, 30⟩]).1 ≤ 1 :=
  claim6_at_most_once_per_minute ⟨-1, sampleAlarm7⟩
    [⟨7, 0, 0⟩, ⟨7, 0, 1⟩, ⟨7, 0, 30⟩] 420 (by decide)

/-- Claim C7: toggling the alarm off while it is ringing (enabled,
triggered, audio context live) performs an implicit dismiss: afterwards
the alarm is neither triggered nor enabled, and the notification sink is
closed exactly once. -/
theorem claim7_disable_while_ringing (s : AlarmState)
    (he : s.alarmEnabled = true) (htr : s.alarmTriggered = true)
    (hctx : s.audioContext = true) :
    (toggleAlarm s).2.alarmTriggered = false ∧
      (toggleAlarm s).2.alarmEnabled = false ∧
      (toggleAlarm s).1.count AudioEvent.ctxClose = 1 := by
  cases hosc : s.oscillatorNode <;> cases hgain : s.gainNode <;>
    simp [toggleAlarm, dismissAlarm, stopAlarmSound, he, htr, hctx, hosc, hgain,
      List.count_cons, List.count_nil]

/-- The sampleAlarm7 configuration while ringing: triggered, with the
audio context and gain node live as playAlarmSound leaves them. -/
def ringingSample : AlarmState :=
  { sampleAlarm7 with alarmTriggered := true, audioContext := true, gainNode := true }

/-- Claim C7 witness: dismissing by toggling from a concrete ringing
state. -/
theorem claim7_witness :
    (toggleAlarm ringingSample).2.alarmTriggered = false ∧
      (toggleAlarm ringingSample).2.alarmEnabled = false ∧
      (toggleAlarm ringingSample).1.count AudioEvent.ctxClose = 1 :=
  claim7_disable_while_ringing ringingSample rfl rfl rfl

/-- Claim C10 witness: with the alarm enabled the countdown is not
none. -/
theorem claim10_witness :
    computeTimeToNextAlarm sampleAlarm7 ⟨12, 30, 15⟩ = none ↔
      sampleAlarm7.alarmEnabled = false :=
  (claim10_countdown_none_iff_disarmed sampleAlarm7 ⟨12, 30, 15⟩
    (by constructor <;> simp [sampleAlarm7])
    (by unfold Time.Valid
        norm_num)).1

end Kello
